import Mathlib

/-!
Verification development for the clawtab repository: a WebSocket relay that
pairs a desktop job-runner with mobile clients by account, plus its
end-to-end test script and a tray-icon generation script.

The relay's connection hub and router are specified in spec.md §4; the
repository ships only the end-to-end test (`src/relay/test_ws_relay.py`)
that exercises them, so the hub/router operations below are modelled from
the spec.  The test helper `ok` and the icon generator `generate_tray_icon`
are translated directly from the Python sources.
-/

namespace Clawtab

/-- A JSON value, as carried in WebSocket text frames.  Objects keep their
fields as an ordered association list. -/
inductive Json where
  | str : String → Json
  | num : Int → Json
  | bool : Bool → Json
  | null : Json
  | arr : List Json → Json
  | obj : List (String × Json) → Json

/-- Look up a field of a JSON object field list (first occurrence). -/
def lookupField : List (String × Json) → String → Option Json
  | [], _ => none
  | (k, v) :: rest, key => if k = key then some v else lookupField rest key

/-- Get a field of a JSON value; `none` unless the value is an object with
that field. -/
def Json.getField : Json → String → Option Json
  | .obj fields, key => lookupField fields key
  | _, _ => none

/-- Get a string-valued field of a JSON value. -/
def Json.getStr (j : Json) (key : String) : Option String :=
  match j.getField key with
  | some (.str s) => some s
  | _ => none

/-- Role of a connection's principal: the paired desktop device or an
account-holder's mobile client (spec §3). -/
inductive Role where
  | desktop : Role
  | mobile : Role
deriving DecidableEq, Repr

/-- Modelled from the spec: the principal descriptor derived once at
handshake from a verified token (spec §3, Data Model). -/
structure Principal where
  accountId : String
  role : Role
  deviceId : Option String
  deviceName : Option String
deriving DecidableEq, Repr

/-- Modelled from the spec: a registered connection — a process-unique id
plus its immutable principal (spec §3).  The socket handle itself has no
observable content in the model; sends to it appear as `Effect`s. -/
structure Connection where
  connectionId : Nat
  principal : Principal
deriving DecidableEq, Repr

/-- Modelled from the spec: an account group — at most one desktop
connection and zero-or-more mobile connections of one account (spec §3). -/
structure Group where
  desktop : Option Connection
  mobiles : List Connection
deriving DecidableEq, Repr

/-- Modelled from the spec: the hub's process-wide state — the table from
account id to account group, plus the counter from which process-unique
connection ids are assigned (spec §4.2).  The relay source is not in the
repository; only its end-to-end test is. -/
structure HubState where
  groups : List (String × Group)
  nextConnId : Nat
deriving DecidableEq, Repr

/-- An observable action of the hub: enqueue a frame on a connection's
outbound send queue, or close a connection with a reason. -/
inductive Effect where
  | send : Nat → Json → Effect
  | close : Nat → String → Effect

/-- The `welcome` envelope sent as the first frame of a successful
handshake (spec §6). -/
def welcomeEnv (connId : Nat) : Json :=
  Json.obj [("type", Json.str "welcome"), ("connection_id", Json.str (toString connId))]

/-- The `desktop_status` presence envelope (spec §6). -/
def desktopStatusEnv (online : Bool) (deviceName : Option String) : Json :=
  Json.obj [("type", Json.str "desktop_status"), ("online", Json.bool online),
    ("device_name", match deviceName with | some n => Json.str n | none => Json.null)]

/-- The `error` envelope, optionally echoing the triggering request's id
(spec §6). -/
def errorEnv (code message : String) (reqId : Option String) : Json :=
  Json.obj ([("type", Json.str "error"), ("code", Json.str code),
    ("message", Json.str message)] ++
    (match reqId with | some i => [("id", Json.str i)] | none => []))

/-- Correlated command types a mobile may send (spec §4.3 routing table). -/
def isCommandType (t : String) : Bool :=
  t = "list_jobs" || t = "run_job" || t = "send_input"

/-- Correlated response types the desktop may send (spec §4.3). -/
def isResponseType (t : String) : Bool :=
  t = "jobs_list" || t = "run_job_ack"

/-- Uncorrelated event types the desktop may send (spec §4.3). -/
def isEventType (t : String) : Bool :=
  t = "status_update" || t = "log_chunk"

/-- Connection ids present in one group: the desktop's (if any) followed by
the mobiles'. -/
def Group.connIds (g : Group) : List Nat :=
  (match g.desktop with | some d => [d.connectionId] | none => []) ++
    g.mobiles.map Connection.connectionId

/-- Connection ids present anywhere in the hub. -/
def hubConnIds (s : HubState) : List Nat :=
  (s.groups.map (fun ag => ag.2.connIds)).flatten

/-- Well-formedness of the hub state: connection ids are unique across the
hub and below the id counter.  Maintained by registration (which assigns
fresh ids from the counter) and trivially by deregistration. -/
def HubState.wf (s : HubState) : Prop :=
  (hubConnIds s).Nodup ∧ ∀ c ∈ hubConnIds s, c < s.nextConnId

/-- Look up the group of an account id. -/
def getGroup : List (String × Group) → String → Option Group
  | [], _ => none
  | ag :: rest, a => if ag.1 = a then some ag.2 else getGroup rest a

/-- Replace the group of an account id, creating it if absent (groups are
created lazily on first connection, spec §3). -/
def setGroup : List (String × Group) → String → Group → List (String × Group)
  | [], a, g => [(a, g)]
  | ag :: rest, a, g => if ag.1 = a then (a, g) :: rest else ag :: setGroup rest a g

/-- Find the connection with a given id in one group. -/
def Group.findConn (g : Group) (cid : Nat) : Option Connection :=
  match g.desktop with
  | some d =>
    if d.connectionId = cid then some d
    else g.mobiles.find? (fun m => m.connectionId = cid)
  | none => g.mobiles.find? (fun m => m.connectionId = cid)

/-- Find the account, group and connection of a connection id. -/
def findConnIn : List (String × Group) → Nat → Option (String × Group × Connection)
  | [], _ => none
  | ag :: rest, cid =>
    match ag.2.findConn cid with
    | some c => some (ag.1, ag.2, c)
    | none => findConnIn rest cid

/-- The close reason the hub gives the prior desktop connection it evicts
when a new desktop registers for the same account (spec §4.2: closed "with
an explicit reason"). -/
def replacedReason : String := "replaced by new desktop connection"

/-- Modelled from the spec: `register(conn) -> connection_id` (spec §4.2,
relay source absent from the repository).  Assigns a process-unique id from
the counter, inserts the connection into its account group per role, evicts
an existing desktop when a desktop registers, emits `welcome{connection_id}`
to the new connection only, and — only when a desktop registers — broadcasts
`desktop_status{online:true}` to the group's mobiles.  Returns the new
state, the assigned id and the emitted effects. -/
def register (p : Principal) (s : HubState) : HubState × Nat × List Effect :=
  let cid := s.nextConnId
  let conn : Connection := { connectionId := cid, principal := p }
  let g := (getGroup s.groups p.accountId).getD { desktop := none, mobiles := [] }
  match p.role with
  | .desktop =>
    let closeEffects :=
      match g.desktop with
      | some d => [Effect.close d.connectionId replacedReason]
      | none => []
    let g' : Group := { desktop := some conn, mobiles := g.mobiles }
    ({ groups := setGroup s.groups p.accountId g', nextConnId := cid + 1 }, cid,
      closeEffects ++ [Effect.send cid (welcomeEnv cid)] ++
        g.mobiles.map (fun m =>
          Effect.send m.connectionId (desktopStatusEnv true p.deviceName)))
  | .mobile =>
    let g' : Group := { desktop := g.desktop, mobiles := g.mobiles ++ [conn] }
    ({ groups := setGroup s.groups p.accountId g', nextConnId := cid + 1 }, cid,
      [Effect.send cid (welcomeEnv cid)])

/-- Modelled from the spec: removal of a connection id from one group
(spec §4.2 `deregister`).  If the id was the group's desktop, the group
broadcasts `desktop_status{online:false, device_name}` to every mobile
remaining in the group; removing a mobile broadcasts nothing; an absent id
is a no-op. -/
def Group.removeConn (g : Group) (cid : Nat) : Group × List Effect :=
  let mobiles' := g.mobiles.filter (fun m => m.connectionId ≠ cid)
  match g.desktop with
  | some d =>
    if d.connectionId = cid then
      ({ desktop := none, mobiles := mobiles' },
        mobiles'.map (fun m =>
          Effect.send m.connectionId (desktopStatusEnv false d.principal.deviceName)))
    else ({ desktop := some d, mobiles := mobiles' }, [])
  | none => ({ desktop := none, mobiles := mobiles' }, [])

/-- Modelled from the spec: `deregister(connection_id)` (spec §4.2, relay
source absent from the repository).  Removes the connection from its group;
a desktop removal broadcasts offline presence to the remaining mobiles, a
mobile removal broadcasts nothing, and deregistering an id that is no
longer present is a no-op (idempotence requirement). -/
def deregister (cid : Nat) (s : HubState) : HubState × List Effect :=
  ({ groups := s.groups.map (fun ag => (ag.1, (ag.2.removeConn cid).1)),
     nextConnId := s.nextConnId },
    (s.groups.map (fun ag => (ag.2.removeConn cid).2)).flatten)

/-- Modelled from the spec: the router's handling of one inbound frame
(spec §4.3 routing table and §4.4 codec, relay source absent from the
repository).  Mobile commands are forwarded verbatim to the group's desktop
or answered with `DESKTOP_OFFLINE` echoing the request id; desktop
responses and events are forwarded verbatim to every mobile in the group;
everything else is answered with `INVALID_MESSAGE`.  Routing never changes
the hub state. -/
def route (s : HubState) (senderId : Nat) (e : Json) : HubState × List Effect :=
  match findConnIn s.groups senderId with
  | none => (s, [])
  | some (_, g, conn) =>
    match e.getStr "type" with
    | none => (s, [Effect.send senderId (errorEnv "INVALID_MESSAGE" "missing type" none)])
    | some t =>
      match conn.principal.role with
      | .mobile =>
        if isCommandType t then
          match e.getStr "id" with
          | none =>
            (s, [Effect.send senderId (errorEnv "INVALID_MESSAGE" "missing id" none)])
          | some reqId =>
            match g.desktop with
            | some d => (s, [Effect.send d.connectionId e])
            | none =>
              (s, [Effect.send senderId
                (errorEnv "DESKTOP_OFFLINE" "desktop is offline" (some reqId))])
        else (s, [Effect.send senderId (errorEnv "INVALID_MESSAGE" "invalid type for mobile" none)])
      | .desktop =>
        if isResponseType t || isEventType t then
          (s, g.mobiles.map (fun m => Effect.send m.connectionId e))
        else (s, [Effect.send senderId (errorEnv "INVALID_MESSAGE" "invalid type for desktop" none)])

/-- Sequential processing of a trace of inbound frames `(senderId, frame)`,
concatenating the effects in processing order.  Each connection's outbound
queue is drained in order (spec §5), so the order of `Effect.send`s to one
connection id is the order its frames go out. -/
def processTrace (s : HubState) : List (Nat × Json) → HubState × List Effect
  | [] => (s, [])
  | f :: rest =>
    let r := route s f.1 f.2
    let r' := processTrace r.1 rest
    (r'.1, r.2 ++ r'.2)

/-- The frames enqueued for one connection id, in order, among a list of
effects. -/
def sentTo (cid : Nat) (effects : List Effect) : List Json :=
  effects.filterMap (fun ef =>
    match ef with
    | .send c e => if c = cid then some e else none
    | .close _ _ => none)

/-- Whether a list of effects closes a given connection id. -/
def closes (cid : Nat) (effects : List Effect) : Bool :=
  effects.any (fun ef =>
    match ef with
    | .send _ _ => false
    | .close c _ => c = cid)

end Clawtab

namespace RelayTest

/-- Outcome of one call to the test helper `ok` of
`src/relay/test_ws_relay.py`: the line it prints and the exit status it
terminates the process with, if any (`sys.exit(1)` on a failed check). -/
structure OkResult where
  line : String
  exitCode : Option Nat
deriving DecidableEq, Repr

/-- The helper `ok(label, condition, detail="")` of
`src/relay/test_ws_relay.py` (lines 36–41): prints
`  [PASS] label( - detail)?` or `  [FAIL] label( - detail)?` and exits the
process with status 1 when the condition is false. -/
def ok (label : String) (condition : Bool) (detail : String) : OkResult :=
  let status := if condition then "PASS" else "FAIL"
  let suffix := if detail = "" then "" else " - " ++ detail
  { line := "  [" ++ status ++ "] " ++ label ++ suffix,
    exitCode := if condition then none else some 1 }

/-- Sequential execution of a list of checks `(label, condition, detail)`
through `ok`, as the test's `main` does: each check prints its line, and
the first failing check terminates the process with exit status 1 so no
later check runs.  Returns the printed lines and the exit status, if any
check failed. -/
def runChecks : List (String × Bool × String) → List String × Option Nat
  | [] => ([], none)
  | c :: rest =>
    let r := ok c.1 c.2.1 c.2.2
    match r.exitCode with
    | some code => ([r.line], some code)
    | none =>
      let rec' := runChecks rest
      (r.line :: rec'.1, rec'.2)

end RelayTest

namespace TrayIcon

/-- An RGBA color as PIL represents it: a 4-tuple of channel values. -/
def Color : Type := Int × Int × Int × Int

/-- A PIL image as far as `scripts/gen-tray-icon.py` observes it: its mode
string, its pixel dimensions, and its pixel grid. -/
structure PILImage where
  mode : String
  width : Nat
  height : Nat
  px : Nat → Nat → Color

/-- `PIL.Image.new(mode, (w, h), color)`: a w×h image of the given mode
with every pixel set to `color`. -/
def newImage (mode : String) (w h : Nat) (color : Color) : PILImage :=
  { mode := mode, width := w, height := h, px := fun _ _ => color }

/-- Filling a region of an image: pixels whose coordinates satisfy the
region test take the fill color, all others are untouched.  This is the
shape of PIL's `ImageDraw` fill primitives: they recolor pixels in place
and never change the image's mode or dimensions. -/
def fillRegion (test : ℚ → ℚ → Bool) (color : Color) (img : PILImage) : PILImage :=
  { mode := img.mode, width := img.width, height := img.height,
    px := fun x y => if test (x : ℚ) (y : ℚ) then color else img.px x y }

/-- Region of `draw.ellipse([x0, y0, x1, y1], fill=...)`: the filled
ellipse inscribed in the bounding box. -/
def insideEllipse (x0 y0 x1 y1 : ℚ) (x y : ℚ) : Bool :=
  let cx := (x0 + x1) / 2
  let cy := (y0 + y1) / 2
  let rx := (x1 - x0) / 2
  let ry := (y1 - y0) / 2
  decide (((x - cx) * ry) ^ 2 + ((y - cy) * rx) ^ 2 ≤ (rx * ry) ^ 2)

/-- One edge of a polygon crosses the rightward ray from `q`
(even–odd ray casting). -/
def edgeCrosses (p1 p2 q : ℚ × ℚ) : Bool :=
  (decide (p1.2 ≤ q.2) != decide (p2.2 ≤ q.2)) &&
    decide (q.1 < p1.1 + (q.2 - p1.2) * (p2.1 - p1.1) / (p2.2 - p1.2))

/-- Region of `draw.polygon(points, fill=...)`: even–odd interior of the
closed polygon through `points`. -/
def insidePolygon (points : List (ℚ × ℚ)) (q : ℚ × ℚ) : Bool :=
  ((points.zip (points.rotate 1)).filter (fun e => edgeCrosses e.1 e.2 q)).length % 2 = 1

/-- Rational renderings (15 significant digits) of the double-precision
trigonometric constants the script computes: `math.cos(math.radians(-55))`
and `math.sin(math.radians(-55))` for the claw axis, and
`math.cos(math.radians(35))`, `math.sin(math.radians(35))` for the
perpendicular offset direction (`angle + 90 = 35`). -/
def cosNeg55 : ℚ := 573576436351046 / 1000000000000000

/-- Rational rendering of `math.sin(math.radians(-55))`. -/
def sinNeg55 : ℚ := -819152044288992 / 1000000000000000

/-- Rational rendering of `math.cos(math.radians(35))`. -/
def cos35 : ℚ := 819152044288992 / 1000000000000000

/-- Rational rendering of `math.sin(math.radians(35))`. -/
def sin35 : ℚ := 573576436351046 / 1000000000000000

/-- The eight polygon vertices of one claw mark, from `draw_claw_mark` of
`scripts/gen-tray-icon.py` (lines 15–56): sharp tips at both ends, two
bulging halves (`b = 0.55`), pinched at the middle (`pinch = 0.7`).  The
claw axis direction is `(dirX, dirY)` (the script's
`(cos(angle), sin(angle))` for `angle_deg = -55`). -/
def clawMarkPoints (cx cy len wid dirX dirY : ℚ) : List (ℚ × ℚ) :=
  let halfLen := len / 2
  let halfWid := wid / 2
  let pinchWid := halfWid * (7 / 10)
  let dx := dirX
  let dy := dirY
  let px := -dirY
  let py := dirX
  let b : ℚ := 55 / 100
  [ (cx - dx * halfLen, cy - dy * halfLen),
    (cx - dx * halfLen * b + px * halfWid, cy - dy * halfLen * b + py * halfWid),
    (cx + px * pinchWid, cy + py * pinchWid),
    (cx + dx * halfLen * b + px * halfWid, cy + dy * halfLen * b + py * halfWid),
    (cx + dx * halfLen, cy + dy * halfLen),
    (cx + dx * halfLen * b - px * halfWid, cy + dy * halfLen * b - py * halfWid),
    (cx - px * pinchWid, cy - py * pinchWid),
    (cx - dx * halfLen * b - px * halfWid, cy - dy * halfLen * b - py * halfWid) ]

/-- `draw_claw_mark(draw, cx, cy, length, width, angle_deg=-55)` of
`scripts/gen-tray-icon.py`: cut the claw polygon out of the image by
filling it with transparent `(0, 0, 0, 0)`. -/
def draw_claw_mark (cx cy len wid : ℚ) (img : PILImage) : PILImage :=
  fillRegion (fun x y => insidePolygon (clawMarkPoints cx cy len wid cosNeg55 sinNeg55) (x, y))
    (0, 0, 0, 0) img

/-- `generate_tray_icon(size)` of `scripts/gen-tray-icon.py` (lines
61–98): a size×size RGBA image, transparent background, a filled black
circle inset by `size * 0.04`, and three parallel claw marks at -55°
cut out of it.  All real arithmetic is carried out in ℚ; the script's
float literals are the corresponding rationals and its trig calls the
rational constants above. -/
def generate_tray_icon (size : Nat) : PILImage :=
  let s : ℚ := size
  let img := newImage "RGBA" size size (0, 0, 0, 0)
  let margin := s * (4 / 100)
  let img := fillRegion (insideEllipse margin margin (s - margin - 1) (s - margin - 1))
    (0, 0, 0, 255) img
  let centerX := s / 2
  let centerY := s / 2
  let spacing := s * (21 / 100)
  let offsetX := cos35 * spacing
  let offsetY := sin35 * spacing
  let marks : List (ℚ × ℚ × ℚ) :=
    [(-1, s * (5 / 10), s * (12 / 100)),
     (0, s * (6 / 10), s * (14 / 100)),
     (1, s * (5 / 10), s * (12 / 100))]
  marks.foldl
    (fun im mk => draw_claw_mark (centerX + mk.1 * offsetX) (centerY + mk.1 * offsetY)
      mk.2.1 mk.2.2 im)
    img

end TrayIcon

namespace Clawtab

/-- Sample principal of a paired desktop device, mirroring the device the
test pairs ("Test MacBook"). -/
def sampleDesktopPrincipal : Principal :=
  { accountId := "acct-1", role := .desktop,
    deviceId := some "dev-1", deviceName := some "Test MacBook" }

/-- Sample principal of a mobile (bearer-token) client. -/
def sampleMobilePrincipal : Principal :=
  { accountId := "acct-1", role := .mobile, deviceId := none, deviceName := none }

/-- Sample registered desktop connection, id 0. -/
def sampleDesktop : Connection :=
  { connectionId := 0, principal := sampleDesktopPrincipal }

/-- Sample registered mobile connection, id 1. -/
def sampleMobile : Connection :=
  { connectionId := 1, principal := sampleMobilePrincipal }

/-- Sample group holding the desktop and one mobile. -/
def sampleGroup : Group := { desktop := some sampleDesktop, mobiles := [sampleMobile] }

/-- Sample hub state: one account group with a desktop and a mobile. -/
def sampleState : HubState := { groups := [("acct-1", sampleGroup)], nextConnId := 2 }

/-- Sample hub state after the desktop disconnected: the group keeps its
mobile but has no desktop. -/
def sampleOfflineState : HubState :=
  { groups := [("acct-1", { desktop := none, mobiles := [sampleMobile] })], nextConnId := 2 }

/-- The `list_jobs{id:"req-1"}` command frame the test's mobile sends. -/
def sampleListJobs : Json :=
  Json.obj [("type", Json.str "list_jobs"), ("id", Json.str "req-1")]

/-- The `jobs_list` response frame the test's desktop sends back. -/
def sampleJobsList : Json :=
  Json.obj [("type", Json.str "jobs_list"), ("id", Json.str "req-1"),
    ("jobs", Json.arr [Json.str "deploy-api"])]

/-- The `status_update` event frame the test's desktop pushes. -/
def sampleStatusUpdate : Json :=
  Json.obj [("type", Json.str "status_update"), ("name", Json.str "deploy-api")]

/-- The `log_chunk` event frame the test's desktop pushes next. -/
def sampleLogChunk : Json :=
  Json.obj [("type", Json.str "log_chunk"), ("name", Json.str "deploy-api"),
    ("content", Json.str "Deploying to production...")]

/-- C1: a command envelope (`list_jobs`, `run_job`, `send_input`) sent by a
mobile connection whose account group has a registered desktop is forwarded
to that desktop connection verbatim — the routing result is exactly one
send, to the desktop, of the very same envelope (hence every payload field
and the caller-chosen `id` arrive unmodified), and the hub state is
unchanged. -/
theorem command_forwarded_verbatim (s : HubState) (senderId : Nat) (e : Json)
    (a : String) (g : Group) (conn d : Connection) (t reqId : String)
    (hfind : findConnIn s.groups senderId = some (a, g, conn))
    (hrole : conn.principal.role = .mobile)
    (htype : e.getStr "type" = some t)
    (hcmd : isCommandType t = true)
    (hid : e.getStr "id" = some reqId)
    (hdesk : g.desktop = some d) :
    route s senderId e = (s, [Effect.send d.connectionId e]) := by
  simp [route, hfind, htype, hrole, hcmd, hid, hdesk]

/-- Witness for C1 at the test's own scenario: the mobile (id 1) sends
`list_jobs{id:"req-1"}` while the desktop (id 0) is registered, and the
relay emits exactly one send of the identical envelope to connection 0. -/
theorem command_forwarded_verbatim_witness :
    findConnIn sampleState.groups 1 = some ("acct-1", sampleGroup, sampleMobile) ∧
    route sampleState 1 sampleListJobs = (sampleState, [Effect.send 0 sampleListJobs]) :=
  ⟨by decide,
    command_forwarded_verbatim sampleState 1 sampleListJobs "acct-1" sampleGroup
      sampleMobile sampleDesktop "list_jobs" "req-1" (by decide) rfl rfl rfl rfl rfl⟩

/-- C2: a correlated response (`jobs_list`, `run_job_ack`) or an
uncorrelated event (`status_update`, `log_chunk`) sent by the desktop
connection is forwarded verbatim to every mobile connection currently in
the same account group — one send per mobile in the group, each carrying
the very same envelope (so any original `id` is preserved), with the
recipients determined by the group alone, not by any original requester. -/
theorem desktop_broadcast_verbatim (s : HubState) (senderId : Nat) (e : Json)
    (a : String) (g : Group) (conn : Connection) (t : String)
    (hfind : findConnIn s.groups senderId = some (a, g, conn))
    (hrole : conn.principal.role = .desktop)
    (htype : e.getStr "type" = some t)
    (hfwd : (isResponseType t || isEventType t) = true) :
    route s senderId e = (s, g.mobiles.map (fun m => Effect.send m.connectionId e)) := by
  simp [route, hfind, htype, hrole, hfwd]

/-- Witness for C2 at the test's own scenario: the desktop (id 0) sends the
`jobs_list` response and the relay emits exactly one send per mobile of the
group — here the single mobile (id 1) — of the identical envelope. -/
theorem desktop_broadcast_verbatim_witness :
    findConnIn sampleState.groups 0 = some ("acct-1", sampleGroup, sampleDesktop) ∧
    route sampleState 0 sampleJobsList = (sampleState, [Effect.send 1 sampleJobsList]) :=
  ⟨by decide,
    desktop_broadcast_verbatim sampleState 0 sampleJobsList "acct-1" sampleGroup
      sampleDesktop "jobs_list" (by decide) rfl rfl rfl⟩

/-- C3: a command envelope sent by a mobile connection whose account group
has no desktop connection is answered, in the same routing step, with
`error{code: DESKTOP_OFFLINE}` echoing the request's `id`, sent to the
sender alone: the routing result is exactly that one send (so no close of
the sender and no effect on any other connection) and the hub state is
returned unchanged. -/
theorem offline_command_error (s : HubState) (senderId : Nat) (e : Json)
    (a : String) (g : Group) (conn : Connection) (t reqId : String)
    (hfind : findConnIn s.groups senderId = some (a, g, conn))
    (hrole : conn.principal.role = .mobile)
    (htype : e.getStr "type" = some t)
    (hcmd : isCommandType t = true)
    (hid : e.getStr "id" = some reqId)
    (hdesk : g.desktop = none) :
    route s senderId e =
      (s, [Effect.send senderId
        (errorEnv "DESKTOP_OFFLINE" "desktop is offline" (some reqId))]) := by
  simp [route, hfind, htype, hrole, hcmd, hid, hdesk]

/-- Witness for C3 at the test's own scenario: after the desktop left, the
mobile (id 1) sends `list_jobs{id:"req-1"}` and the relay answers it alone
with a `DESKTOP_OFFLINE` error echoing `"req-1"`, leaving the state as it
was. -/
theorem offline_command_error_witness :
    findConnIn sampleOfflineState.groups 1 =
      some ("acct-1", { desktop := none, mobiles := [sampleMobile] }, sampleMobile) ∧
    route sampleOfflineState 1 sampleListJobs =
      (sampleOfflineState, [Effect.send 1
        (errorEnv "DESKTOP_OFFLINE" "desktop is offline" (some "req-1"))]) :=
  ⟨by decide,
    offline_command_error sampleOfflineState 1 sampleListJobs "acct-1"
      { desktop := none, mobiles := [sampleMobile] } sampleMobile "list_jobs" "req-1"
      (by decide) rfl rfl rfl rfl rfl⟩

end Clawtab

namespace RelayTest

/-- Regrouping of a string literal prefixing the FAIL marker. -/
theorem append_lit_fail (x : String) : "  [FAIL] " ++ x = "  [FAIL" ++ ("] " ++ x) := by
  rw [← String.append_assoc, show ("  [FAIL] " : String) = "  [FAIL" ++ "] " from rfl]

/-- Regrouping of a string literal prefixing the PASS marker. -/
theorem append_lit_pass (x : String) : "  [PASS] " ++ x = "  [PASS" ++ ("] " ++ x) := by
  rw [← String.append_assoc, show ("  [PASS] " : String) = "  [PASS" ++ "] " from rfl]

/-- C9: the test helper `ok(label, condition, detail)` prints a line
containing `FAIL` and terminates the process with exit status 1 when the
condition is false — so, run in sequence, no later check runs — and prints
a line containing `PASS` and returns normally (no exit) when the condition
is true, letting the remaining checks run. -/
theorem ok_pass_fail (label detail : String) (rest : List (String × Bool × String)) :
    ((ok label false detail).exitCode = some 1 ∧
      (∃ pre post, (ok label false detail).line = pre ++ "FAIL" ++ post) ∧
      runChecks ((label, false, detail) :: rest) = ([(ok label false detail).line], some 1)) ∧
    ((ok label true detail).exitCode = none ∧
      (∃ pre post, (ok label true detail).line = pre ++ "PASS" ++ post) ∧
      runChecks ((label, true, detail) :: rest) =
        ((ok label true detail).line :: (runChecks rest).1, (runChecks rest).2)) :=
  ⟨⟨rfl,
    ⟨"  [", "] " ++ label ++ (if detail = "" then "" else " - " ++ detail),
      by simp [ok, String.append_assoc]; exact append_lit_fail _⟩,
    rfl⟩,
   ⟨rfl,
    ⟨"  [", "] " ++ label ++ (if detail = "" then "" else " - " ++ detail),
      by simp [ok, String.append_assoc]; exact append_lit_pass _⟩,
    rfl⟩⟩

end RelayTest

/-- C10: `generate_tray_icon(size)` yields an image whose mode is `RGBA`
and whose width and height both equal `size`, and the result is
deterministic — in this embedding the script is a pure function of `size`
alone (its geometry is fixed arithmetic on `size`, with no randomness,
time, or other input), so two calls at the same size are definitionally
the same image, pixel for pixel. -/
theorem generate_tray_icon_rgba_square (size : Nat) :
    (TrayIcon.generate_tray_icon size).mode = "RGBA" ∧
    (TrayIcon.generate_tray_icon size).width = size ∧
    (TrayIcon.generate_tray_icon size).height = size ∧
    TrayIcon.generate_tray_icon size = TrayIcon.generate_tray_icon size :=
  ⟨rfl, rfl, rfl, rfl⟩

namespace Clawtab

/-- Setting a group and reading it back at the same account id. -/
theorem getGroup_setGroup (gs : List (String × Group)) (a : String) (g : Group) :
    getGroup (setGroup gs a g) a = some g := by
  induction gs with
  | nil => simp [setGroup, getGroup]
  | cons ag rest ih =>
    by_cases h : ag.1 = a
    · simp [setGroup, getGroup, h]
    · simp [setGroup, getGroup, h, ih]

/-- A successful group lookup means the pair is in the table. -/
theorem getGroup_mem {gs : List (String × Group)} {a : String} {g : Group}
    (h : getGroup gs a = some g) : (a, g) ∈ gs := by
  induction gs with
  | nil => simp [getGroup] at h
  | cons ag rest ih =>
    obtain ⟨k, v⟩ := ag
    by_cases hh : k = a
    · subst hh
      simp [getGroup] at h
      subst h
      exact List.mem_cons_self _ _
    · simp [getGroup, hh] at h
      exact List.mem_cons_of_mem _ (ih h)

/-- Connection ids of a member group are connection ids of the hub. -/
theorem mem_hubConnIds {s : HubState} {a : String} {g : Group} {x : Nat}
    (hmem : (a, g) ∈ s.groups) (hx : x ∈ g.connIds) : x ∈ hubConnIds s := by
  simp only [hubConnIds, List.mem_flatten]
  exact ⟨g.connIds, List.mem_map_of_mem _ hmem, hx⟩

/-- Filtering a list twice by the same id test does nothing new. -/
theorem filter_ne_idem (l : List Connection) (cid : Nat) :
    (l.filter (fun m => m.connectionId ≠ cid)).filter (fun m => m.connectionId ≠ cid) =
      l.filter (fun m => m.connectionId ≠ cid) := by
  rw [List.filter_filter]
  simp

/-- Removing a connection id from a group twice is the same as once, and
the second removal emits nothing. -/
theorem removeConn_removeConn (g : Group) (cid : Nat) :
    ((g.removeConn cid).1).removeConn cid = ((g.removeConn cid).1, []) := by
  cases hd : g.desktop with
  | none => simp [Group.removeConn, hd, filter_ne_idem]
  | some d =>
    by_cases h : d.connectionId = cid
    · simp [Group.removeConn, hd, h, filter_ne_idem]
    · simp [Group.removeConn, hd, h, filter_ne_idem]

/-- Flattening a map that yields only empty lists gives the empty list. -/
theorem flatten_map_nil {α β : Type} (l : List α) :
    (l.map (fun _ => ([] : List β))).flatten = [] := by
  induction l with
  | nil => rfl
  | cons a rest ih => simp [ih]

/-- C5: every account group holds at most one desktop connection — the
group's desktop slot is a single optional connection in the hub table —
and when a desktop principal registers for an account that already has a
desktop connection `d`, the incoming connection (with the freshly assigned
id) takes the slot while the hub closes `d` with an explicit reason. -/
theorem desktop_registration_replaces (p : Principal) (s : HubState) (g : Group) (d : Connection)
    (hrole : p.role = .desktop)
    (hgrp : getGroup s.groups p.accountId = some g)
    (hdesk : g.desktop = some d) :
    getGroup (register p s).1.groups p.accountId =
      some { desktop := some { connectionId := s.nextConnId, principal := p },
             mobiles := g.mobiles } ∧
    Effect.close d.connectionId replacedReason ∈ (register p s).2.2 := by
  constructor
  · simp [register, hrole, hgrp, hdesk, getGroup_setGroup]
  · simp [register, hrole, hgrp, hdesk]

/-- Witness for C5: a second desktop registers for the account of
`sampleState`, whose desktop is connection 0; the new connection 2 takes
the desktop slot and the hub closes connection 0 with the explicit
reason. -/
theorem desktop_registration_replaces_witness :
    sampleDesktopPrincipal.role = Role.desktop ∧
    getGroup sampleState.groups "acct-1" = some sampleGroup ∧
    getGroup (register sampleDesktopPrincipal sampleState).1.groups "acct-1" =
      some { desktop := some { connectionId := 2, principal := sampleDesktopPrincipal },
             mobiles := [sampleMobile] } ∧
    Effect.close 0 replacedReason ∈ (register sampleDesktopPrincipal sampleState).2.2 := by
  have h := desktop_registration_replaces sampleDesktopPrincipal sampleState sampleGroup
    sampleDesktop rfl (by decide) rfl
  exact ⟨rfl, by decide, h.1, h.2⟩

/-- C8: `deregister` is idempotent — deregistering a connection id a second
time, after it has already been deregistered, returns the hub state
entirely unchanged and emits no effect at all (in particular no duplicate
presence broadcast). -/
theorem deregister_idempotent (cid : Nat) (s : HubState) :
    deregister cid (deregister cid s).1 = ((deregister cid s).1, []) := by
  have h1 : ∀ ag : String × Group,
      (((ag.2.removeConn cid).1).removeConn cid).1 = (ag.2.removeConn cid).1 :=
    fun ag => by rw [removeConn_removeConn]
  have h2 : ∀ ag : String × Group,
      (((ag.2.removeConn cid).1).removeConn cid).2 = ([] : List Effect) :=
    fun ag => by rw [removeConn_removeConn]
  have hg : (deregister cid (deregister cid s).1).1 = (deregister cid s).1 := by
    simp only [deregister, List.map_map]
    congr 1
    apply List.map_congr_left
    intro ag _
    simp [Function.comp, h1 ag]
  have he : (deregister cid (deregister cid s).1).2 = [] := by
    simp only [deregister, List.map_map]
    have hmap : List.map ((fun ag : String × Group => (ag.2.removeConn cid).2) ∘
          (fun ag : String × Group => (ag.1, (ag.2.removeConn cid).1))) s.groups =
        List.map (fun _ => ([] : List Effect)) s.groups := by
      apply List.map_congr_left
      intro ag _
      simp [Function.comp, h2 ag]
    rw [hmap, flatten_map_nil]
  calc deregister cid (deregister cid s).1
      = ((deregister cid (deregister cid s).1).1, (deregister cid (deregister cid s).1).2) := rfl
    _ = ((deregister cid s).1, []) := by rw [hg, he]

/-- Frames sent to one connection by concatenated effect lists: the
concatenation of the frames sent by each part, in order. -/
theorem sentTo_append (c : Nat) (l1 l2 : List Effect) :
    sentTo c (l1 ++ l2) = sentTo c l1 ++ sentTo c l2 := by
  simp [sentTo, List.filterMap_append]

/-- Frames a broadcast of one envelope sends to a connection id: one copy
of the envelope per occurrence of the id among the recipients. -/
theorem sentTo_sends (l : List Connection) (c : Nat) (e : Json) :
    sentTo c (l.map (fun m => Effect.send m.connectionId e)) =
      List.replicate ((l.map Connection.connectionId).count c) e := by
  induction l with
  | nil => rfl
  | cons m rest ih =>
    simp only [sentTo, List.filterMap_map] at ih
    by_cases h : m.connectionId = c
    · simp [sentTo, List.filterMap_cons, List.filterMap_map, h, List.count_cons, ih,
        List.replicate_succ]
    · simp [sentTo, List.filterMap_cons, List.filterMap_map, h, List.count_cons, ih]

/-- Frames sent to a connection are unaffected by a leading close effect. -/
theorem sentTo_cons_close (c x : Nat) (r : String) (l : List Effect) :
    sentTo c (Effect.close x r :: l) = sentTo c l := by
  simp [sentTo, List.filterMap_cons]

/-- Frames sent to a connection skip a send addressed elsewhere. -/
theorem sentTo_cons_send_ne (c x : Nat) (e : Json) (l : List Effect) (h : x ≠ c) :
    sentTo c (Effect.send x e :: l) = sentTo c l := by
  simp [sentTo, List.filterMap_cons, h]

/-- Frames sent to a connection start with a send addressed to it. -/
theorem sentTo_cons_send_eq (c : Nat) (e : Json) (l : List Effect) :
    sentTo c (Effect.send c e :: l) = e :: sentTo c l := by
  simp [sentTo, List.filterMap_cons]

/-- Every frame a broadcast delivers to a connection is the broadcast
envelope itself. -/
theorem eq_of_mem_sentTo_broadcast {c : Nat} {e env : Json} {l : List Connection}
    (h : e ∈ sentTo c (l.map (fun m => Effect.send m.connectionId env))) : e = env := by
  rw [sentTo_sends] at h
  exact List.eq_of_mem_replicate h

/-- C7: messages from one sender to one peer keep their send order.  When
the desktop connection sends `status_update` and then `log_chunk`, the
frames delivered to any connection id are all the copies of the
`status_update` envelope followed by all the copies of the `log_chunk`
envelope — and a mobile of the group receives at least one copy of each,
so each mobile receives `status_update` strictly before `log_chunk`. -/
theorem desktop_events_in_order (s : HubState) (dcid mcid : Nat) (e1 e2 : Json)
    (a : String) (g : Group) (dconn : Connection)
    (hfind : findConnIn s.groups dcid = some (a, g, dconn))
    (hrole : dconn.principal.role = .desktop)
    (ht1 : e1.getStr "type" = some "status_update")
    (ht2 : e2.getStr "type" = some "log_chunk") :
    sentTo mcid (processTrace s [(dcid, e1), (dcid, e2)]).2 =
      List.replicate ((g.mobiles.map Connection.connectionId).count mcid) e1 ++
        List.replicate ((g.mobiles.map Connection.connectionId).count mcid) e2 ∧
    (mcid ∈ g.mobiles.map Connection.connectionId →
      0 < (g.mobiles.map Connection.connectionId).count mcid) := by
  have hb1 : (isResponseType "status_update" || isEventType "status_update") = true := rfl
  have hb2 : (isResponseType "log_chunk" || isEventType "log_chunk") = true := rfl
  have hr1 : route s dcid e1 = (s, g.mobiles.map fun m => Effect.send m.connectionId e1) := by
    simp [route, hfind, hrole, ht1, hb1]
  have hr2 : route s dcid e2 = (s, g.mobiles.map fun m => Effect.send m.connectionId e2) := by
    simp [route, hfind, hrole, ht2, hb2]
  constructor
  · simp [processTrace, hr1, hr2, sentTo_append, sentTo_sends]
  · intro hm
    exact List.count_pos_iff.mpr hm

/-- Witness for C7 at the test's own scenario: the desktop (id 0) pushes
`status_update` then `log_chunk`, and the group's one mobile (id 1)
receives exactly those two envelopes in that order. -/
theorem desktop_events_in_order_witness :
    findConnIn sampleState.groups 0 = some ("acct-1", sampleGroup, sampleDesktop) ∧
    sentTo 1 (processTrace sampleState [(0, sampleStatusUpdate), (0, sampleLogChunk)]).2 =
      [sampleStatusUpdate, sampleLogChunk] := by
  have h := desktop_events_in_order sampleState 0 1 sampleStatusUpdate sampleLogChunk
    "acct-1" sampleGroup sampleDesktop (by decide) rfl rfl rfl
  exact ⟨by decide, h.1⟩

/-- C6: every successful registration assigns the hub's id counter as the
connection id (so ids are process-unique: the counter strictly increases
with each registration and, in a well-formed state, exceeds every id
already registered), and the first — indeed only — frame the hub sends to
the new connection is `welcome{connection_id}`, which no other connection
receives: every frame addressed elsewhere carries a non-`welcome` type. -/
theorem register_welcome (p : Principal) (s : HubState) (hwf : s.wf) :
    (register p s).2.1 = s.nextConnId ∧
    (register p s).1.nextConnId = s.nextConnId + 1 ∧
    (register p s).2.1 ∉ hubConnIds s ∧
    sentTo (register p s).2.1 (register p s).2.2 = [welcomeEnv (register p s).2.1] ∧
    (∀ c, c ≠ (register p s).2.1 →
      ∀ e ∈ sentTo c (register p s).2.2, e.getStr "type" ≠ some "welcome") := by
  have hfresh : s.nextConnId ∉ hubConnIds s := by
    intro hmem
    exact absurd (hwf.2 _ hmem) (lt_irrefl _)
  have hmob : ∀ g0, getGroup s.groups p.accountId = some g0 →
      s.nextConnId ∉ g0.mobiles.map Connection.connectionId := by
    intro g0 hg hmem
    obtain ⟨m, hm, hid⟩ := List.mem_map.mp hmem
    have hin : m.connectionId ∈ hubConnIds s := by
      refine mem_hubConnIds (getGroup_mem hg) ?_
      exact List.mem_append_right _ (List.mem_map_of_mem _ hm)
    rw [hid] at hin
    exact hfresh hin
  have hcid : (register p s).2.1 = s.nextConnId := by
    cases hrole : p.role <;> simp [register, hrole]
  have hnext : (register p s).1.nextConnId = s.nextConnId + 1 := by
    cases hrole : p.role <;> simp [register, hrole]
  refine ⟨hcid, hnext, by rw [hcid]; exact hfresh, ?_, ?_⟩
  · rw [hcid]
    cases hrole : p.role with
    | mobile => simp [register, hrole, sentTo_cons_send_eq, sentTo]
    | desktop =>
      cases hg : getGroup s.groups p.accountId with
      | none => simp [register, hrole, hg, sentTo_cons_send_eq, sentTo]
      | some g0 =>
        have hzero : (g0.mobiles.map Connection.connectionId).count s.nextConnId = 0 :=
          List.count_eq_zero.mpr (hmob g0 hg)
        cases hd : g0.desktop with
        | none =>
          simp [register, hrole, hg, hd, sentTo_append, sentTo_cons_send_eq,
            sentTo_sends, hzero, sentTo]
          intro m hm heq
          exact hmob g0 hg (heq ▸ List.mem_map_of_mem Connection.connectionId hm)
        | some d =>
          simp [register, hrole, hg, hd, sentTo_append, sentTo_cons_close,
            sentTo_cons_send_eq, sentTo_sends, hzero, sentTo]
          intro m hm heq
          exact hmob g0 hg (heq ▸ List.mem_map_of_mem Connection.connectionId hm)
  · intro c hc e he
    rw [hcid] at hc
    have hne : s.nextConnId ≠ c := fun h => hc h.symm
    have hty : e.getStr "type" = some "desktop_status" := by
      cases hrole : p.role with
      | mobile =>
        simp only [register, hrole] at he
        rw [sentTo_cons_send_ne _ _ _ _ hne] at he
        simp [sentTo] at he
      | desktop =>
        cases hg : getGroup s.groups p.accountId with
        | none =>
          simp only [register, hrole, hg, Option.getD_none, List.map_nil,
            List.append_nil, List.nil_append] at he
          rw [sentTo_cons_send_ne _ _ _ _ hne] at he
          simp [sentTo] at he
        | some g0 =>
          cases hd : g0.desktop with
          | none =>
            simp only [register, hrole, hg, hd, Option.getD_some, List.nil_append,
              List.singleton_append] at he
            rw [sentTo_cons_send_ne _ _ _ _ hne] at he
            rw [eq_of_mem_sentTo_broadcast he]
            rfl
          | some d =>
            simp only [register, hrole, hg, hd, Option.getD_some, List.cons_append,
              List.nil_append, List.singleton_append, sentTo_cons_close] at he
            rw [sentTo_cons_send_ne _ _ _ _ hne] at he
            rw [eq_of_mem_sentTo_broadcast he]
            rfl
    rw [hty]
    simp

/-- Witness for C6: a second desktop registering into the well-formed
`sampleState` is assigned the fresh id 2 and is the only connection to
receive a `welcome` frame, which is the only frame it receives. -/
theorem register_welcome_witness :
    sampleState.wf ∧
    (register sampleDesktopPrincipal sampleState).2.1 = 2 ∧
    sentTo 2 (register sampleDesktopPrincipal sampleState).2.2 = [welcomeEnv 2] := by
  have hwf : sampleState.wf := ⟨by decide, by decide⟩
  have h := register_welcome sampleDesktopPrincipal sampleState hwf
  exact ⟨hwf, h.1, h.2.2.2.1⟩

/-- Filtering by an id that occurs nowhere in the list changes nothing. -/
theorem filter_ne_eq_self {l : List Connection} {cid : Nat}
    (h : ∀ m ∈ l, m.connectionId ≠ cid) :
    l.filter (fun m => m.connectionId ≠ cid) = l :=
  List.filter_eq_self.mpr (by intro m hm; simp [h m hm])

/-- Removing a connection id that is not in a group leaves the group as it
was and emits nothing. -/
theorem removeConn_not_mem {g : Group} {cid : Nat} (h : cid ∉ g.connIds) :
    g.removeConn cid = (g, []) := by
  obtain ⟨gd, gm⟩ := g
  have hmob : ∀ m ∈ gm, m.connectionId ≠ cid := by
    intro m hm heq
    exact h (List.mem_append_right _ (List.mem_map.mpr ⟨m, hm, heq⟩))
  cases gd with
  | none =>
    simp [Group.removeConn]
    exact hmob
  | some d =>
    have hd : d.connectionId ≠ cid := by
      intro heq
      exact h (List.mem_append_left _ (heq ▸ List.mem_singleton_self _))
    simp [Group.removeConn, hd]
    exact hmob

/-- Groups that do not contain the deregistered id contribute no effect. -/
theorem flatten_removeConn_nil (l : List (String × Group)) (cid : Nat)
    (h : ∀ ag ∈ l, cid ∉ ag.2.connIds) :
    (l.map (fun ag => (ag.2.removeConn cid).2)).flatten = [] := by
  induction l with
  | nil => rfl
  | cons x xs ih =>
    have hx := removeConn_not_mem (h x (List.mem_cons_self x xs))
    have hxs := ih (fun ag hag => h ag (List.mem_cons_of_mem x hag))
    simp [hx, hxs]

/-- When the deregistered id lives only in one group of the table, the
hub's deregistration effects are exactly that group's. -/
theorem deregister_effects_decomp (s : HubState) (pre post : List (String × Group))
    (a : String) (g : Group) (cid : Nat)
    (hsplit : s.groups = pre ++ (a, g) :: post)
    (hpre : ∀ ag ∈ pre, cid ∉ ag.2.connIds)
    (hpost : ∀ ag ∈ post, cid ∉ ag.2.connIds) :
    (deregister cid s).2 = (g.removeConn cid).2 := by
  simp only [deregister, hsplit, List.map_append, List.map_cons, List.flatten_append,
    List.flatten_cons, flatten_removeConn_nil pre cid hpre,
    flatten_removeConn_nil post cid hpost, List.nil_append, List.append_nil]

/-- In a table whose flattened connection ids are duplicate-free, an id of
the middle group appears in no other group, and the middle group's own ids
are duplicate-free. -/
theorem nodup_middle_disjoint (pre post : List (String × Group)) (a : String) (g : Group)
    (cid : Nat)
    (hnodup : (((pre ++ (a, g) :: post).map (fun ag => ag.2.connIds)).flatten).Nodup)
    (hcid : cid ∈ g.connIds) :
    (∀ ag ∈ pre, cid ∉ ag.2.connIds) ∧ (∀ ag ∈ post, cid ∉ ag.2.connIds) ∧
      g.connIds.Nodup := by
  rw [List.map_append, List.map_cons, List.flatten_append, List.flatten_cons] at hnodup
  obtain ⟨hA, hRest, hdisjA⟩ := List.nodup_append.mp hnodup
  obtain ⟨hg, hB, hdisjgB⟩ := List.nodup_append.mp hRest
  refine ⟨?_, ?_, hg⟩
  · intro ag hag hin
    have hmem : cid ∈ (pre.map (fun ag => ag.2.connIds)).flatten :=
      List.mem_flatten.mpr ⟨ag.2.connIds, List.mem_map_of_mem _ hag, hin⟩
    exact hdisjA hmem (List.mem_append_left _ hcid)
  · intro ag hag hin
    have hmem : cid ∈ (post.map (fun ag => ag.2.connIds)).flatten :=
      List.mem_flatten.mpr ⟨ag.2.connIds, List.mem_map_of_mem _ hag, hin⟩
    exact hdisjgB hcid hmem

/-- C4: on deregistration in a well-formed hub, a group's desktop
connection going away broadcasts `desktop_status{online:false,
device_name}` to every mobile remaining in that group — those are the only
effects emitted — while deregistering a mobile connection emits no effect
at all (in particular no broadcast). -/
theorem deregister_presence (s : HubState) (a : String) (g : Group)
    (hwf : s.wf) (hmem : (a, g) ∈ s.groups) :
    (∀ d, g.desktop = some d →
      (deregister d.connectionId s).2 =
        g.mobiles.map (fun m =>
          Effect.send m.connectionId (desktopStatusEnv false d.principal.deviceName))) ∧
    (∀ m ∈ g.mobiles, (deregister m.connectionId s).2 = []) := by
  obtain ⟨pre, post, hsplit⟩ := List.append_of_mem hmem
  have hnodup : (((pre ++ (a, g) :: post).map (fun ag => ag.2.connIds)).flatten).Nodup := by
    have h0 : ((s.groups.map (fun ag => ag.2.connIds)).flatten).Nodup := hwf.1
    rw [hsplit] at h0
    exact h0
  constructor
  · intro d hd
    have hcid : d.connectionId ∈ g.connIds :=
      List.mem_append_left _ (hd ▸ List.mem_singleton_self _)
    obtain ⟨hpre, hpost, hgnodup⟩ :=
      nodup_middle_disjoint pre post a g d.connectionId hnodup hcid
    rw [deregister_effects_decomp s pre post a g d.connectionId hsplit hpre hpost]
    have hcons : g.connIds = d.connectionId :: g.mobiles.map Connection.connectionId := by
      simp [Group.connIds, hd]
    rw [hcons] at hgnodup
    have hdm : ∀ m ∈ g.mobiles, m.connectionId ≠ d.connectionId := by
      intro m hm heq
      exact (List.nodup_cons.mp hgnodup).1 (heq ▸ List.mem_map_of_mem _ hm)
    have hfilter : List.filter (fun m => !decide (m.connectionId = d.connectionId))
        g.mobiles = g.mobiles :=
      List.filter_eq_self.mpr (by intro m hm; simpa using hdm m hm)
    simp [Group.removeConn, hd]
    rw [hfilter]
  · intro m hm
    have hcid : m.connectionId ∈ g.connIds :=
      List.mem_append_right _ (List.mem_map_of_mem _ hm)
    obtain ⟨hpre, hpost, hgnodup⟩ :=
      nodup_middle_disjoint pre post a g m.connectionId hnodup hcid
    rw [deregister_effects_decomp s pre post a g m.connectionId hsplit hpre hpost]
    cases hd : g.desktop with
    | none => simp [Group.removeConn, hd]
    | some d =>
      have hcons : g.connIds = d.connectionId :: g.mobiles.map Connection.connectionId := by
        simp [Group.connIds, hd]
      rw [hcons] at hgnodup
      have hne : ¬d.connectionId = m.connectionId := by
        intro heq
        exact (List.nodup_cons.mp hgnodup).1 (heq ▸ List.mem_map_of_mem _ hm)
      simp [Group.removeConn, hd, hne]

/-- Witness for C4 at the test's own scenario: deregistering the desktop
(id 0) of the well-formed `sampleState` emits exactly the offline
`desktop_status` broadcast to the group's one mobile (id 1), and
deregistering that mobile emits nothing. -/
theorem deregister_presence_witness :
    sampleState.wf ∧ ("acct-1", sampleGroup) ∈ sampleState.groups ∧
    (deregister 0 sampleState).2 =
      [Effect.send 1 (desktopStatusEnv false (some "Test MacBook"))] ∧
    (deregister 1 sampleState).2 = [] := by
  have hwf : sampleState.wf := ⟨by decide, by decide⟩
  have hmem : ("acct-1", sampleGroup) ∈ sampleState.groups := by decide
  have h := deregister_presence sampleState "acct-1" sampleGroup hwf hmem
  exact ⟨hwf, hmem, h.1 sampleDesktop rfl, h.2 sampleMobile (by decide)⟩

end Clawtab
